import Mathlib

/-!
Verification of the `c360-button` widget (`src/assets/c360-button/dist/button.js`)
against its natural-language specification.

The development shallowly embeds the parts of the bundle that the claims
touch:

* the JS values stored in element state (`Value`), with JS reference
  semantics for the frozen assigned-node arrays (each array carries an
  identity, since `===` on arrays is reference equality);
* the `ReactiveMixin` state machinery: `fieldsChanged`, the
  `copyStateWithChanges` fixed-point loop (fuelled, since the JS loop is
  `while (true)`), and `[setState]` (`setStateResult`);
* the attribute helpers `reflectAttribute$1` / `delegateAttribute$1`
  (module scope near line 2204) and the `sds-utils` versions (line 2236);
* the `[render]` methods of `SdsButton` (line 2110) and `C360Button`
  (line 2362), covering every host/button attribute, class and style
  mutation performed by a render (the remaining mixins in the chain —
  `ShadowTemplateMixin`, `ReactiveMixin`, `AttributeMarshallingMixin`,
  `HoverMixin` — perform no attribute/class writes in `[render]`;
  `ShadowTemplateMixin` only stamps the shadow tree once);
* the module-level kinetics handlers `setCoordProps`, `handleMove`,
  `handleEnter`, `handleLeave`, `handleClick`, `handleRippleEnd`
  (lines 2440-2483) and the shared `kxRefs` record.
-/

namespace C360

/-- A DOM node as observed by `checkSlotContent`: only `tagName` and
`textContent` are consulted.  `none` models the JS value `undefined`. -/
structure DomNode where
  tagName : Option String
  textContent : Option String
  deriving DecidableEq, Repr

/-- JS `String.prototype.trim`: strip leading and trailing whitespace.
Defined by structural list operations so that it evaluates on concrete
strings. -/
def jsTrim (s : String) : String :=
  String.mk ((s.data.dropWhile Char.isWhitespace).reverse.dropWhile Char.isWhitespace).reverse

/-- A JS value as stored in element state or passed to the attribute
helpers.  `nodes id ns` models a (frozen) array of assigned nodes; `id`
is the array's heap identity, so that equality of `Value`s coincides
with JS `===` (two distinct arrays are never `===`, and the arrays are
frozen, so one identity always denotes one list). -/
inductive Value where
  | str : String → Value
  | bool : Bool → Value
  | null : Value
  | nodes : Nat → List DomNode → Value
  deriving DecidableEq, Repr

/-- JS truthiness of a `Value` (arrays and `true` and non-empty strings
are truthy; `null`, `false` and the empty string are falsy). -/
def jsTruthy : Value → Bool
  | .str s => s ≠ ""
  | .bool b => b
  | .null => false
  | .nodes _ _ => true

/-- JS truthiness where `none` models `undefined` (falsy). -/
def jsTruthyOpt : Option Value → Bool
  | none => false
  | some v => jsTruthy v

/-- The string JS `setAttribute` stores for a value (`String(value)`). -/
def attrString : Value → String
  | .str s => s
  | .bool b => if b then "true" else "false"
  | .null => "null"
  | .nodes _ _ => ""

/-- `equal` from ReactiveMixin (line 1543): plain `===`.  The `Date`
special case in the source is dead here — no state field ever holds a
`Date`.  On `Value`, `===` is structural equality because reference
identity is part of the `nodes` constructor. -/
def jsEqual (v1 v2 : Value) : Bool :=
  v1 = v2

/-- `booleanAttributeValue` (line 1124): a boolean passes through, a
string is true iff it is empty or a case-insensitive match for the
attribute name, anything else is false. -/
def booleanAttributeValue (name : String) (value : Value) : Bool :=
  match value with
  | .bool b => b
  | .str s => s = "" || name.toLower = s.toLower
  | _ => false

/-! ### State objects

A JS state object is a finite map from field names to values, modelled
as an association list without duplicate keys (JS objects cannot have
duplicate keys; all operations below preserve key-uniqueness). -/

abbrev StateMap := List (String × Value)

/-- Property read `state[field]`; `none` models `undefined`. -/
def lookupField : StateMap → String → Option Value
  | [], _ => none
  | (k, v) :: rest, key => if k = key then some v else lookupField rest key

/-- Property write `obj[key] = v` (in-place in JS; functional here). -/
def setField : StateMap → String → Value → StateMap
  | [], key, v => [(key, v)]
  | (k, w) :: rest, key, v =>
    if k = key then (key, v) :: rest else (k, w) :: setField rest key v

/-- `Object.assign(target, source)`: write every field of `source` onto
`target`, in key order. -/
def objAssign (target source : StateMap) : StateMap :=
  source.foldl (fun acc kv => setField acc kv.1 kv.2) target

/-- Does `changes[k] = v` count as a substantive change against `state`?
Per `fieldsChanged` (line 1558): yes unless `equal(v, state[k])`; a field
absent from `state` (`undefined`) is always a change, since the supplied
values are never `undefined`. -/
def fieldChangedIn (state : StateMap) (k : String) (v : Value) : Bool :=
  match lookupField state k with
  | some w => ! jsEqual v w
  | none => true

/-- `fieldsChanged(state, changes)` (line 1558), as the list of field
names flagged `true` (a JS `ChangedFlags` object, in insertion order). -/
def fieldsChanged (state changes : StateMap) : List String :=
  (changes.filter (fun kv => fieldChangedIn state kv.1 kv.2)).map Prod.fst

/-- `Object.assign(log, changed)` on two `ChangedFlags` objects: keys
already present keep their position, new keys are appended. -/
def mergeChanged (log extra : List String) : List String :=
  log ++ extra.filter (fun k => ! log.contains k)

/-! ### `copyStateWithChanges` (line 1508)

The JS loop is `while (true)`; we give it fuel and return `none` if the
fuel runs out (which never happens for this element, whose
`stateEffects` is the trivial one — see `c360StateEffects`). -/

/-- One run of the effect-resolution loop body, starting from the copied
state, the accumulated changed-flags and the pending effects. -/
def stateLoop (stateEffects : StateMap → List String → StateMap) :
    Nat → StateMap → List String → StateMap → Option (StateMap × List String)
  | 0, _, _, _ => none
  | fuel + 1, state, changed, effects =>
    let changedByEffects := fieldsChanged state effects
    if changedByEffects.isEmpty then
      some (state, changed)
    else
      let state' := objAssign state effects
      let changed' := mergeChanged changed changedByEffects
      stateLoop stateEffects fuel state' changed' (stateEffects state' changedByEffects)

/-- `copyStateWithChanges(element, changes)`: copy the current state
(`Object.assign({}, element[stateKey])`, the empty object when the state
is still undefined), then run the loop with `changes` as the first round
of effects. -/
def copyStateWithChanges (stateEffects : StateMap → List String → StateMap)
    (fuel : Nat) (currentState : StateMap) (changes : StateMap) :
    Option (StateMap × List String) :=
  stateLoop stateEffects fuel currentState [] changes

/-- The `[stateEffects]` of `C360Button`.  Nothing in the class chain
(`C360Button`, `SlotContentMixin`, `SdsButton`, `HoverMixin`,
`ReactiveElement`) overrides `[stateEffects]`, so the only
implementation is ReactiveMixin's base one (line 1479), which returns
the empty object. -/
def c360StateEffects : StateMap → List String → StateMap :=
  fun _ _ => []

/-! ### The element: state snapshot, change log and DOM surface -/

/-- A state snapshot together with its `Object.freeze` status.  The copy
built inside `copyStateWithChanges` is a fresh unfrozen object; `[setState]`
calls `Object.freeze` on it before installing it (line 1391). -/
structure Snapshot where
  map : StateMap
  frozen : Bool
  deriving DecidableEq, Repr

/-- An attribute map (host element or shadow button element):
attribute name to attribute string value. -/
abbrev AttrMap := List (String × String)

/-- `element.getAttribute(name)` (`none` when absent). -/
def getAttr : AttrMap → String → Option String
  | [], _ => none
  | (k, v) :: rest, key => if k = key then some v else getAttr rest key

/-- `element.setAttribute(name, value)`. -/
def setAttr : AttrMap → String → String → AttrMap
  | [], key, v => [(key, v)]
  | (k, w) :: rest, key, v =>
    if k = key then (key, v) :: rest else (k, w) :: setAttr rest key v

/-- `element.removeAttribute(name)`. -/
def removeAttr (m : AttrMap) (key : String) : AttrMap :=
  m.filter (fun kv => kv.1 ≠ key)

/-- `classList.toggle(c, force)` with an explicit boolean `force`. -/
def classToggle (classes : List String) (c : String) (force : Bool) : List String :=
  if force then (if classes.contains c then classes else classes ++ [c])
  else classes.filter (· ≠ c)

/-- The DOM surface a render mutates: the host element's attributes and
inline style custom properties, and the shadow `[part="button"]`
element's attributes and class list. -/
structure RenderDom where
  hostAttrs : AttrMap
  hostStyle : List (String × String)
  buttonAttrs : AttrMap
  buttonClasses : List String
  deriving DecidableEq, Repr

/-- The widget element: ReactiveMixin bookkeeping (current snapshot,
`changedSinceLastRender` log where `none` is JS `null`, the
`firstRender` flag where `none` is JS `undefined`, connectedness), its
rendered DOM surface, and whether its module-level `mousemove` listener
is currently attached (`handleEnter`/`handleLeave`). -/
structure WidgetEl where
  currentState : Option Snapshot
  changedSinceLastRender : Option (List String)
  firstRenderFlag : Option Bool
  isConnected : Bool
  dom : RenderDom
  listensMove : Bool
  deriving DecidableEq, Repr

/-- The element's current state map (`this[state]`); the empty object
when the state is still undefined (only before the constructor's first
`setState`). -/
def currentMap (el : WidgetEl) : StateMap :=
  match el.currentState with
  | some s => s.map
  | none => []

/-- Read a field of the element's current state (the property getters
`this[state].foo`). -/
def readState (el : WidgetEl) (k : String) : Option Value :=
  lookupField (currentMap el) k

/-- `[setState](changes)` (line 1366), up to and including deciding
whether a render needs to be queued; the returned boolean is
`needsRender` (line 1419).  The fuel 2 always suffices for
`c360StateEffects` (see `stateLoop_c360`).  Models:

* the early return when the state is defined and nothing substantively
  changed (line 1384);
* `Object.freeze` of the new snapshot before installation (line 1391);
* accumulation of the changed fields into `changedSinceLastRender`
  (line 1410). -/
def setStateResult (el : WidgetEl) (changes : StateMap) : WidgetEl × Bool :=
  match copyStateWithChanges c360StateEffects 2 (currentMap el) changes with
  | none => (el, false)
  | some (state, changed) =>
    if el.currentState.isSome && changed.isEmpty then
      (el, false)
    else
      let willRender :=
        el.firstRenderFlag.isNone || el.changedSinceLastRender.isSome
      let log := mergeChanged (el.changedSinceLastRender.getD []) changed
      let el' := { el with
        currentState := some { map := state, frozen := true }
        changedSinceLastRender := some log }
      (el', el.isConnected && ! willRender)

/-! ### Attribute helpers (lines 2204-2251) -/

/-- The JS test `value || typeof value === 'boolean'` used by
`reflectAttribute$1` and `delegateAttribute$1`: truthy values and both
booleans pass. -/
def truthyOrBoolean : Option Value → Bool
  | some (.bool _) => true
  | v => jsTruthyOpt v

/-- `String(value)` for an optional value (JS stringifies `undefined`
as "undefined" when it reaches `setAttribute`). -/
def attrStringOpt : Option Value → String
  | some v => attrString v
  | none => "undefined"

/-- `reflectAttribute$1(element, name, value)` (line 2204). -/
def reflectAttribute1 (m : AttrMap) (name : String) (value : Option Value) : AttrMap :=
  if truthyOrBoolean value then setAttr m name (attrStringOpt value)
  else removeAttr m name

/-- `delegateAttribute$1(from, to, name, value)` (line 2212): set the
attribute on the shadow button and remove it from the host when the
value is truthy or boolean, otherwise remove it from the button.
Returns (from, to). -/
def delegateAttribute1 (fromAttrs toAttrs : AttrMap) (name : String)
    (value : Option Value) : AttrMap × AttrMap :=
  if truthyOrBoolean value then
    (removeAttr fromAttrs name, setAttr toAttrs name (attrStringOpt value))
  else
    (fromAttrs, removeAttr toAttrs name)

/-- `sds-utils`' `reflectAttribute` (line 2236): set when truthy (the
empty string for `true`), remove when falsy. -/
def reflectAttribute (m : AttrMap) (name : String) (value : Option Value) : AttrMap :=
  if jsTruthyOpt value then
    setAttr m name (match value with
      | some (.bool _) => ""
      | some v => attrString v
      | none => "")
  else removeAttr m name

/-! ### `SdsButton[render]` (line 2110) -/

/-- One delegating branch of `SdsButton[render]`: runs only when the
field is in the changed flags and its new value is truthy. -/
def sdsDelegateBranch (changed : List String) (st : StateMap)
    (field attr : String) (dom : RenderDom) : RenderDom :=
  if changed.contains field then
    let v := lookupField st field
    if jsTruthyOpt v then
      let p := delegateAttribute1 dom.hostAttrs dom.buttonAttrs attr v
      { dom with hostAttrs := p.1, buttonAttrs := p.2 }
    else dom
  else dom

/-- `SdsButton[render](changed)` (line 2110).  Its `super[render]`
(HoverMixin has none; ReactiveMixin's is a no-op; ShadowTemplateMixin
only stamps the shadow tree on the very first render and writes no
attributes) contributes nothing to the modelled DOM surface. -/
def sdsRender (changed : List String) (st : StateMap) (dom : RenderDom) : RenderDom :=
  let dom := sdsDelegateBranch changed st "disabled" "disabled" dom
  let dom :=
    if changed.contains "id" then
      { dom with buttonAttrs := reflectAttribute1 dom.buttonAttrs "id" (lookupField st "id") }
    else dom
  let dom := sdsDelegateBranch changed st "ariaLabel" "aria-label" dom
  let dom := sdsDelegateBranch changed st "ariaPressed" "aria-pressed" dom
  let dom := sdsDelegateBranch changed st "ariaControls" "aria-controls" dom
  let dom := sdsDelegateBranch changed st "ariaExpanded" "aria-expanded" dom
  let dom := sdsDelegateBranch changed st "ariaLive" "aria-live" dom
  let dom := sdsDelegateBranch changed st "ariaHaspopup" "aria-haspopup" dom
  let dom := sdsDelegateBranch changed st "value" "value" dom
  let dom := sdsDelegateBranch changed st "name" "name" dom
  let dom := sdsDelegateBranch changed st "role" "role" dom
  dom

/-! ### `C360Button[render]` (line 2362) -/

/-- `checkSlotContent(nodes)` (line 2415): keep a node if it has a
(truthy) `tagName`, else if its `textContent` is truthy and trims to a
truthy (non-empty) string; content is present when at least one node is
kept. -/
def checkSlotContent (nodes : List DomNode) : Bool :=
  (nodes.filter (fun node =>
    match node.tagName with
    | some tag => if tag ≠ "" then true else textKeeps node.textContent
    | none => textKeeps node.textContent)).length > 0
where
  /-- `node.textContent ? node.textContent.trim() : false`, coerced to
  boolean by `Array.prototype.filter`. -/
  textKeeps : Option String → Bool
    | some t => if t ≠ "" then jsTrim t ≠ "" else false
    | none => false

/-- `this[state].content && this.checkSlotContent(this[state].content)`
(line 2377), coerced to boolean.  The `content` field is only ever
`null` (its default, from `SlotContentMixin`) or a frozen array of
assigned nodes (the `slotchange` listener), so the non-array truthy
cases cannot occur. -/
def defaultSlotHasContent (v : Option Value) : Bool :=
  match v with
  | some (.nodes _ ns) => checkSlotContent ns
  | _ => false

/-- `C360Button[render](changed)` (line 2362): `super[render]`, then the
`size`, `variant`, `content`, `isRippling` and `kxType` branches, then
the duplicated `size`/`variant` branches (lines 2394-2402).  The
`firstRender` listener wiring (line 2404) installs the module-level
kinetics handlers and is modelled separately. -/
def c360Render (changed : List String) (st : StateMap) (dom : RenderDom) : RenderDom :=
  let dom := sdsRender changed st dom
  let dom :=
    if changed.contains "size" then
      { dom with hostAttrs := reflectAttribute dom.hostAttrs "size" (lookupField st "size") }
    else dom
  let dom :=
    if changed.contains "variant" then
      { dom with hostAttrs := reflectAttribute dom.hostAttrs "variant" (lookupField st "variant") }
    else dom
  let dom :=
    if changed.contains "content" then
      let battrs :=
        if defaultSlotHasContent (lookupField st "content") then
          removeAttr dom.buttonAttrs "icon-only"
        else
          setAttr dom.buttonAttrs "icon-only" ""
      { dom with buttonAttrs := battrs }
    else dom
  let dom :=
    if changed.contains "isRippling" then
      let classes :=
        classToggle dom.buttonClasses "sds-kx-is-animating-from-click"
          (jsTruthyOpt (lookupField st "isRippling"))
      { dom with buttonClasses := classes }
    else dom
  let dom :=
    if changed.contains "kxType" then
      let hattrs :=
        reflectAttribute dom.hostAttrs "kx-type"
          (if jsTruthyOpt (lookupField st "kinetics") then lookupField st "kxType"
           else some (.bool false))
      { dom with hostAttrs := hattrs }
    else dom
  let dom :=
    if changed.contains "size" then
      { dom with hostAttrs := reflectAttribute dom.hostAttrs "size" (lookupField st "size") }
    else dom
  let dom :=
    if changed.contains "variant" then
      { dom with hostAttrs := reflectAttribute dom.hostAttrs "variant" (lookupField st "variant") }
    else dom
  dom

/-- `[renderChanges]` (line 1281) restricted to its render effect: when
a change log is pending, render it against the current state and clear
the log.  (The constructor's `setState(defaultState)` guarantees the
log is non-null whenever the first render happens, so the
`changed = null` path is unreachable in practice.) -/
def renderNow (el : WidgetEl) : WidgetEl :=
  match el.currentState, el.changedSinceLastRender with
  | some snap, some log =>
    { el with
      dom := c360Render log snap.map el.dom
      changedSinceLastRender := none
      firstRenderFlag := some false }
  | _, _ => el

/-! ### Property setters used by the claims -/

/-- The `kxDisabled` setter (line 2330): parse with boolean-attribute
semantics and drive `kinetics` inversely. -/
def setKxDisabled (el : WidgetEl) (kxDisabled : Value) : WidgetEl × Bool :=
  let isKxDisabled := booleanAttributeValue "kx-disabled" kxDisabled
  setStateResult el
    [("kxDisabled", .bool isKxDisabled), ("kinetics", .bool (! isKxDisabled))]

/-- The `isRippling` setter (line 2358). -/
def setIsRippling (el : WidgetEl) (isRippling : Bool) : WidgetEl × Bool :=
  setStateResult el [("isRippling", .bool isRippling)]

/-! ### Kinetics handlers and the shared `kxRefs` record (lines 2440-2483)

`kxRefs` is a single module-level object (`const kxRefs = {}`, line
2440): every widget instance's handlers close over the same record, so
the `refs` argument threaded through the handlers below is the one
process-wide record, whichever instance the event fired on. -/

/-- The module-level record: the last pointer offset
(`kxRefs._pointerRef`) and the active animation-frame handle
(`kxRefs.requestRef`) plus the previous frame timestamp.  `none` models
a field not yet assigned. -/
structure KxRefs where
  pointerRef : Option (Int × Int)
  requestRef : Option Nat
  previousTimeRef : Option Nat
  deriving DecidableEq, Repr

/-- `setCoordProps(element)` (line 2442): write the shared record's
last offset into the element's two coordinate custom properties.  (If
`_pointerRef` were still unset the JS destructuring would throw; every
modelled caller assigns it first.) -/
def setCoordProps (el : WidgetEl) (refs : KxRefs) : WidgetEl :=
  match refs.pointerRef with
  | some (x, y) =>
    let style :=
      setAttr
        (setAttr el.dom.hostStyle "--c360-c-button-kx-pointer-position-x"
          (toString x ++ "px"))
        "--c360-c-button-kx-pointer-position-y" (toString y ++ "px")
    { el with dom := { el.dom with hostStyle := style } }
  | none => el

/-- `handleMove({offsetX, offsetY})` (line 2456): store the offset in
the shared record.  The handler uses no `this` at all — it is the same
write whichever instance's listener fired. -/
def handleMove (refs : KxRefs) (offsetX offsetY : Int) : KxRefs :=
  { refs with pointerRef := some (offsetX, offsetY) }

/-- `handleEnter` (line 2460): request an animation frame, store its
handle in the shared record, and attach the `mousemove` listener to the
entered instance.  `nextHandle` is the handle
`window.requestAnimationFrame` returns. -/
def handleEnter (el : WidgetEl) (refs : KxRefs) (nextHandle : Nat) :
    WidgetEl × KxRefs :=
  ({ el with listensMove := true },
   { refs with requestRef := some nextHandle })

/-- `handleLeave` (line 2468): cancel the frame whose handle is in the
shared record and detach the instance's `mousemove` listener.  The
record itself is not written — `requestRef` keeps the (now cancelled)
handle. -/
def handleLeave (el : WidgetEl) (refs : KxRefs) : WidgetEl × KxRefs :=
  ({ el with listensMove := false }, refs)

/-- `handleClick(event)` (line 2473): short-circuit unless `this.kxType`
is exactly the string "ripple"; otherwise store the click offset in the
shared record, write the coordinate custom properties immediately, and
set `isRippling` to true through the property setter. -/
def handleClick (el : WidgetEl) (refs : KxRefs) (offsetX offsetY : Int) :
    WidgetEl × KxRefs :=
  if readState el "kxType" = some (.str "ripple") then
    let refs' := { refs with pointerRef := some (offsetX, offsetY) }
    let el := setCoordProps el refs'
    ((setIsRippling el true).1, refs')
  else
    (el, refs)

/-- `handleRippleEnd(event)` (line 2481): set `isRippling` back to
false. -/
def handleRippleEnd (el : WidgetEl) : WidgetEl :=
  (setIsRippling el false).1

/-! ### Concrete rendered elements used as test vehicles -/

/-- A rendered, idle widget whose kinetics have been disabled
(`kxDisabled = true`, `kinetics = false`) while the ripple type is still
"ripple", and which is not currently rippling. -/
def idleKxDisabledButton : WidgetEl where
  currentState :=
    some ⟨[("kxType", Value.str "ripple"), ("kinetics", Value.bool false),
           ("kxDisabled", Value.bool true), ("isRippling", Value.bool false)], true⟩
  changedSinceLastRender := none
  firstRenderFlag := some false
  isConnected := true
  dom := { hostAttrs := [], hostStyle := [], buttonAttrs := [], buttonClasses := [] }
  listensMove := false

/-- A widget that has already rendered once with the default kinetics
configuration: state holds `kxType = "ripple"` and `kinetics = true`,
the change log is clear, and the host carries `kx-type="ripple"`. -/
def renderedRippleButton : WidgetEl where
  currentState :=
    some { map := [("kxType", Value.str "ripple"), ("kinetics", Value.bool true)],
           frozen := true }
  changedSinceLastRender := none
  firstRenderFlag := some false
  isConnected := true
  dom :=
    { hostAttrs := [("kx-type", "ripple")], hostStyle := [],
      buttonAttrs := [], buttonClasses := [] }
  listensMove := false

/-! ## Lemmas about the state machinery -/

theorem lookupField_setField_self (m : StateMap) (k : String) (v : Value) :
    lookupField (setField m k v) k = some v := by
  induction m with
  | nil => simp [setField, lookupField]
  | cons kv rest ih =>
    by_cases h : kv.1 = k
    · simp [setField, lookupField, h]
    · simp [setField, lookupField, h, ih]

theorem lookupField_setField_ne (m : StateMap) {k a : String} (v : Value)
    (h : a ≠ k) : lookupField (setField m k v) a = lookupField m a := by
  induction m with
  | nil => simp [setField, lookupField, Ne.symm h]
  | cons kv rest ih =>
    rcases kv with ⟨k1, v1⟩
    by_cases hk : k1 = k
    · subst hk
      simp [setField, lookupField, Ne.symm h]
    · simp [setField, lookupField, hk, ih]

theorem setField_of_lookup {m : StateMap} {k : String} {v : Value}
    (h : lookupField m k = some v) : setField m k v = m := by
  induction m with
  | nil => simp [lookupField] at h
  | cons kv rest ih =>
    rcases kv with ⟨k1, v1⟩
    by_cases hk : k1 = k
    · simp [lookupField, hk] at h
      simp [setField, hk, h]
    · simp [lookupField, hk] at h
      simp [setField, hk, ih h]

theorem fieldChangedIn_eq_false {st : StateMap} {k : String} {v : Value} :
    fieldChangedIn st k v = false ↔ lookupField st k = some v := by
  unfold fieldChangedIn jsEqual
  cases h : lookupField st k with
  | none => simp [h]
  | some w =>
    by_cases hv : v = w
    · simp [hv]
    · simp [hv, Ne.symm hv]

theorem fieldsChanged_nil_iff {st changes : StateMap} :
    fieldsChanged st changes = [] ↔
      ∀ kv ∈ changes, lookupField st kv.1 = some kv.2 := by
  unfold fieldsChanged
  rw [List.map_eq_nil_iff, List.filter_eq_nil_iff]
  constructor
  · intro h kv hm
    exact fieldChangedIn_eq_false.mp (by simpa using h kv hm)
  · intro h kv hm
    simp [fieldChangedIn_eq_false.mpr (h kv hm)]

theorem objAssign_no_changes {st changes : StateMap}
    (h : fieldsChanged st changes = []) : objAssign st changes = st := by
  rw [fieldsChanged_nil_iff] at h
  induction changes generalizing st with
  | nil => rfl
  | cons kv rest ih =>
    have hhead := h kv (by simp)
    have hrest : ∀ kv2 ∈ rest, lookupField st kv2.1 = some kv2.2 :=
      fun kv2 hm => h kv2 (by simp [hm])
    show objAssign (setField st kv.1 kv.2) rest = st
    rw [setField_of_lookup hhead]
    exact ih hrest

theorem mergeChanged_nil (l : List String) : mergeChanged [] l = l := by
  simp [mergeChanged, List.filter_eq_self, List.contains]

/-- With no pending effects the loop returns immediately. -/
theorem stateLoop_one_nil (f : StateMap → List String → StateMap)
    (s : StateMap) (ch : List String) : stateLoop f 1 s ch [] = some (s, ch) :=
  rfl

/-- The effect-resolution loop for this element always terminates within
two rounds (the element's `stateEffects` is the trivial one), producing
the current state overridden by the supplied changes, together with the
substantive changed-field flags. -/
theorem stateLoop_c360 (st changes : StateMap) :
    stateLoop c360StateEffects 2 st [] changes
      = some (objAssign st changes, fieldsChanged st changes) := by
  by_cases h : fieldsChanged st changes = []
  · unfold stateLoop
    simp [h, objAssign_no_changes h]
  · have h2 : (fieldsChanged st changes).isEmpty = false := by
      cases hl : fieldsChanged st changes
      · exact absurd hl h
      · rfl
    conv_lhs => unfold stateLoop
    simp [h2, c360StateEffects, mergeChanged_nil, stateLoop_one_nil]

/-- C3 claim, spelled for `copyStateWithChanges` directly. -/
theorem copyStateWithChanges_c360 (st changes : StateMap) :
    copyStateWithChanges c360StateEffects 2 st changes
      = some (objAssign st changes, fieldsChanged st changes) :=
  stateLoop_c360 st changes

/-- `[setState]`, with the loop result made explicit. -/
theorem setStateResult_eq (el : WidgetEl) (changes : StateMap) :
    setStateResult el changes =
      if el.currentState.isSome && (fieldsChanged (currentMap el) changes).isEmpty then
        (el, false)
      else
        ({ el with
            currentState := some { map := objAssign (currentMap el) changes, frozen := true }
            changedSinceLastRender := some (mergeChanged (el.changedSinceLastRender.getD [])
              (fieldsChanged (currentMap el) changes)) },
         el.isConnected && ! (el.firstRenderFlag.isNone || el.changedSinceLastRender.isSome)) := by
  unfold setStateResult
  rw [copyStateWithChanges_c360]

/-- **C3.**  The state produced by the `[setState]` entry point is
settled: it is the current state overridden by the supplied changes
(plus all second-order effects — the element's `stateEffects` never
produces any, so the loop settles after applying the supplied changes),
and asking the element's state-effects function about the returned
state with its final changed-field set yields no further substantive
change: the result is a fixed point of the effect-resolution loop. -/
theorem setState_reaches_settled_fixed_point (el : WidgetEl) (changes : StateMap) :
    currentMap ((setStateResult el changes).1) = objAssign (currentMap el) changes
    ∧ fieldsChanged (objAssign (currentMap el) changes)
        (c360StateEffects (objAssign (currentMap el) changes)
          (fieldsChanged (currentMap el) changes)) = [] := by
  constructor
  · rw [setStateResult_eq]
    by_cases h : (el.currentState.isSome
        && (fieldsChanged (currentMap el) changes).isEmpty) = true
    · have hnil : fieldsChanged (currentMap el) changes = [] := by
        have h2 := ((Bool.and_eq_true _ _).mp h).2
        exact List.isEmpty_iff.mp h2
      rw [if_pos h, objAssign_no_changes hnil]
    · rw [if_neg h]
      rfl
  · rfl

/-- **C4.**  When the element already has a state, a change set whose
every field equals the corresponding current-state field is a no-op:
the element record is untouched (same snapshot, same pending change
log) and no render is scheduled. -/
theorem setState_identical_values_is_noop (el : WidgetEl) (changes : StateMap)
    (snap : Snapshot) (hdef : el.currentState = some snap)
    (hsame : ∀ kv ∈ changes, lookupField snap.map kv.1 = some kv.2) :
    setStateResult el changes = (el, false) := by
  have hmap : currentMap el = snap.map := by simp [currentMap, hdef]
  have hnil : fieldsChanged (currentMap el) changes = [] := by
    rw [hmap, fieldsChanged_nil_iff]
    exact hsame
  rw [setStateResult_eq, hnil]
  simp [hdef]

/-- Witness for C4: a concrete element whose `disabled` field is
already `false`, updated with `{disabled: false}`. -/
theorem setState_identical_values_is_noop_witness :
    setStateResult
      { currentState := some { map := [("disabled", .bool false)], frozen := true }
        changedSinceLastRender := none
        firstRenderFlag := some false
        isConnected := true
        dom := { hostAttrs := [], hostStyle := [], buttonAttrs := [], buttonClasses := [] }
        listensMove := false }
      [("disabled", .bool false)]
    = ({ currentState := some { map := [("disabled", .bool false)], frozen := true }
         changedSinceLastRender := none
         firstRenderFlag := some false
         isConnected := true
         dom := { hostAttrs := [], hostStyle := [], buttonAttrs := [], buttonClasses := [] }
         listensMove := false }, false) :=
  setState_identical_values_is_noop _ _
    { map := [("disabled", .bool false)], frozen := true } rfl (by decide)

/-- **C6.**  Every `[setState]` call either leaves the current snapshot
untouched (the no-op path) or installs, wholesale, a snapshot that was
freshly constructed from a copy of the old one (`Object.assign({}, old)`
overridden by the changes) and frozen before installation.  The
previously current snapshot is never edited: all loop mutations happen
on the unfrozen copy, and the installed snapshot always carries
`frozen = true`. -/
theorem setState_installs_frozen_snapshot_wholesale (el : WidgetEl) (changes : StateMap) :
    (setStateResult el changes).1.currentState = el.currentState
    ∨ (setStateResult el changes).1.currentState
        = some { map := objAssign (currentMap el) changes, frozen := true } := by
  rw [setStateResult_eq]
  by_cases h : (el.currentState.isSome
      && (fieldsChanged (currentMap el) changes).isEmpty) = true
  · left
    rw [if_pos h]
  · right
    rw [if_neg h]

/-! ## Lemmas about attributes and the render functions -/

theorem getAttr_setAttr_self (m : AttrMap) (k v : String) :
    getAttr (setAttr m k v) k = some v := by
  induction m with
  | nil => simp [setAttr, getAttr]
  | cons kv rest ih =>
    by_cases h : kv.1 = k
    · simp [setAttr, getAttr, h]
    · simp [setAttr, getAttr, h, ih]

theorem getAttr_setAttr_ne (m : AttrMap) {k a : String} (v : String)
    (h : a ≠ k) : getAttr (setAttr m k v) a = getAttr m a := by
  induction m with
  | nil => simp [setAttr, getAttr, Ne.symm h]
  | cons kv rest ih =>
    rcases kv with ⟨k1, v1⟩
    by_cases hk : k1 = k
    · subst hk
      simp [setAttr, getAttr, Ne.symm h]
    · simp [setAttr, getAttr, hk, ih]

theorem getAttr_removeAttr (m : AttrMap) (k a : String) :
    getAttr (removeAttr m k) a = if a = k then none else getAttr m a := by
  induction m with
  | nil => simp [removeAttr, getAttr]
  | cons kv rest ih =>
    rcases kv with ⟨k1, v1⟩
    by_cases hk : k1 = k
    · subst hk
      have hfilter : removeAttr ((k1, v1) :: rest) k1 = removeAttr rest k1 := by
        simp [removeAttr]
      rw [hfilter, ih]
      by_cases ha : a = k1
      · simp [ha]
      · have ha2 : ¬ k1 = a := fun hh => ha hh.symm
        simp [ha, ha2, getAttr]
    · have hfilter : removeAttr ((k1, v1) :: rest) k = (k1, v1) :: removeAttr rest k := by
        simp [removeAttr, hk]
      rw [hfilter]
      by_cases ha : k1 = a
      · subst ha
        simp [getAttr, hk]
      · simp [getAttr, ha, ih]

theorem getAttr_removeAttr_self (m : AttrMap) (k : String) :
    getAttr (removeAttr m k) k = none := by
  simp [getAttr_removeAttr]

theorem getAttr_removeAttr_ne (m : AttrMap) {k a : String} (h : a ≠ k) :
    getAttr (removeAttr m k) a = getAttr m a := by
  simp [getAttr_removeAttr, h]

theorem getAttr_reflectAttribute_ne (m : AttrMap) {name a : String}
    (v : Option Value) (h : a ≠ name) :
    getAttr (reflectAttribute m name v) a = getAttr m a := by
  unfold reflectAttribute
  split
  · exact getAttr_setAttr_ne m _ h
  · exact getAttr_removeAttr_ne m h

/-- The string `sds-utils` `reflectAttribute` writes for a truthy value. -/
def reflectedString (v : Option Value) : String :=
  match v with
  | some (.bool _) => ""
  | some w => attrString w
  | none => ""

theorem getAttr_reflectAttribute_self (m : AttrMap) (name : String) (v : Option Value) :
    getAttr (reflectAttribute m name v) name =
      if jsTruthyOpt v then some (reflectedString v) else none := by
  unfold reflectAttribute reflectedString
  split
  · rename_i h
    simp [h, getAttr_setAttr_self]
  · rename_i h
    simp [h, getAttr_removeAttr_self]

theorem getAttr_reflectAttribute1_ne (m : AttrMap) {name a : String}
    (v : Option Value) (h : a ≠ name) :
    getAttr (reflectAttribute1 m name v) a = getAttr m a := by
  unfold reflectAttribute1
  split
  · exact getAttr_setAttr_ne m _ h
  · exact getAttr_removeAttr_ne m h

/-- Push a record projection through an `if`. -/
theorem hostAttrs_ite (c : Prop) [Decidable c] (A B : RenderDom) :
    (if c then A else B).hostAttrs = if c then A.hostAttrs else B.hostAttrs := by
  split <;> rfl

theorem buttonAttrs_ite (c : Prop) [Decidable c] (A B : RenderDom) :
    (if c then A else B).buttonAttrs = if c then A.buttonAttrs else B.buttonAttrs := by
  split <;> rfl

theorem buttonClasses_ite (c : Prop) [Decidable c] (A B : RenderDom) :
    (if c then A else B).buttonClasses = if c then A.buttonClasses else B.buttonClasses := by
  split <;> rfl

theorem hostStyle_ite (c : Prop) [Decidable c] (A B : RenderDom) :
    (if c then A else B).hostStyle = if c then A.hostStyle else B.hostStyle := by
  split <;> rfl

theorem getAttr_ite (c : Prop) [Decidable c] (m m2 : AttrMap) (a : String) :
    getAttr (if c then m else m2) a = if c then getAttr m a else getAttr m2 a := by
  split <;> rfl

/-! Behaviour of a single delegating branch of `SdsButton[render]`. -/

theorem jsTruthyOpt_truthyOrBoolean {v : Option Value}
    (h : jsTruthyOpt v = true) : truthyOrBoolean v = true := by
  cases v with
  | none => simp [jsTruthyOpt] at h
  | some w => cases w <;> simp_all [jsTruthyOpt, jsTruthy, truthyOrBoolean]

/-- A delegating branch whose field did not change is a no-op. -/
theorem sdsDelegateBranch_not_changed {changed : List String} {st : StateMap}
    {field : String} (attr : String) (dom : RenderDom)
    (hc : changed.contains field = false) :
    sdsDelegateBranch changed st field attr dom = dom := by
  unfold sdsDelegateBranch
  rw [if_neg (by rw [hc]; decide)]

/-- A delegating branch whose new value is falsy is a no-op. -/
theorem sdsDelegateBranch_not_truthy {st : StateMap} {field : String}
    (changed : List String) (attr : String) (dom : RenderDom)
    (ht : jsTruthyOpt (lookupField st field) = false) :
    sdsDelegateBranch changed st field attr dom = dom := by
  unfold sdsDelegateBranch
  split
  · simp [ht]
  · rfl

/-- A delegating branch whose field changed to a truthy value sets the
attribute on the shadow button and removes it from the host. -/
theorem sdsDelegateBranch_pos {changed : List String} {st : StateMap}
    {field : String} (attr : String)
    (hc : changed.contains field = true)
    (ht : jsTruthyOpt (lookupField st field) = true) (dom : RenderDom) :
    sdsDelegateBranch changed st field attr dom =
      { dom with
        hostAttrs := removeAttr dom.hostAttrs attr
        buttonAttrs := setAttr dom.buttonAttrs attr (attrStringOpt (lookupField st field)) } := by
  unfold sdsDelegateBranch
  rw [if_pos hc]
  simp [delegateAttribute1, ht, jsTruthyOpt_truthyOrBoolean ht]

theorem sdsDelegateBranch_hostAttrs_ne {a : String} (changed : List String)
    (st : StateMap) (field : String) {attr : String} (dom : RenderDom)
    (h : a ≠ attr) :
    getAttr (sdsDelegateBranch changed st field attr dom).hostAttrs a
      = getAttr dom.hostAttrs a := by
  simp only [sdsDelegateBranch, delegateAttribute1]
  split
  · split
    · split
      · simp [getAttr_removeAttr_ne _ h]
      · rfl
    · rfl
  · rfl

theorem sdsDelegateBranch_buttonAttrs_ne {a : String} (changed : List String)
    (st : StateMap) (field : String) {attr : String} (dom : RenderDom)
    (h : a ≠ attr) :
    getAttr (sdsDelegateBranch changed st field attr dom).buttonAttrs a
      = getAttr dom.buttonAttrs a := by
  simp only [sdsDelegateBranch, delegateAttribute1]
  split
  · split
    · split
      · simp [getAttr_setAttr_ne _ _ h]
      · simp [getAttr_removeAttr_ne _ h]
    · rfl
  · rfl

/-- A delegating branch never adds a host attribute: an absent host
attribute stays absent (the host side is only ever `removeAttribute`). -/
theorem sdsDelegateBranch_hostAttrs_none {a : String} (changed : List String)
    (st : StateMap) (field attr : String) (dom : RenderDom)
    (h : getAttr dom.hostAttrs a = none) :
    getAttr (sdsDelegateBranch changed st field attr dom).hostAttrs a = none := by
  simp only [sdsDelegateBranch, delegateAttribute1]
  split
  · split
    · split
      · rw [getAttr_removeAttr]
        split <;> simp [h]
      · exact h
    · exact h
  · exact h

theorem sdsDelegateBranch_hostStyle (changed : List String) (st : StateMap)
    (field attr : String) (dom : RenderDom) :
    (sdsDelegateBranch changed st field attr dom).hostStyle = dom.hostStyle := by
  simp only [sdsDelegateBranch, delegateAttribute1]
  split
  · split <;> rfl
  · rfl

theorem sdsDelegateBranch_buttonClasses (changed : List String) (st : StateMap)
    (field attr : String) (dom : RenderDom) :
    (sdsDelegateBranch changed st field attr dom).buttonClasses = dom.buttonClasses := by
  simp only [sdsDelegateBranch, delegateAttribute1]
  split
  · split <;> rfl
  · rfl

/-! Composite facts about `SdsButton[render]`. -/

theorem sdsRender_hostStyle (changed : List String) (st : StateMap) (dom : RenderDom) :
    (sdsRender changed st dom).hostStyle = dom.hostStyle := by
  simp only [sdsRender]
  simp [sdsDelegateBranch_hostStyle, hostStyle_ite]

theorem sdsRender_buttonClasses (changed : List String) (st : StateMap) (dom : RenderDom) :
    (sdsRender changed st dom).buttonClasses = dom.buttonClasses := by
  simp only [sdsRender]
  simp [sdsDelegateBranch_buttonClasses, buttonClasses_ite]

/-- No branch of `SdsButton[render]` touches the host `kx-type`
attribute. -/
theorem sdsRender_hostAttrs_kx_type (changed : List String) (st : StateMap) (dom : RenderDom) :
    getAttr (sdsRender changed st dom).hostAttrs "kx-type"
      = getAttr dom.hostAttrs "kx-type" := by
  simp only [sdsRender]
  simp [sdsDelegateBranch_hostAttrs_ne, hostAttrs_ite, getAttr_ite]

/-- When `disabled` changed to a truthy value, `SdsButton[render]` sets
the `disabled` attribute on the shadow button (no later branch touches
it). -/
theorem sdsRender_buttonAttrs_disabled_pos (changed : List String) (st : StateMap)
    (dom : RenderDom) (hc : changed.contains "disabled" = true)
    (ht : jsTruthyOpt (lookupField st "disabled") = true) :
    getAttr (sdsRender changed st dom).buttonAttrs "disabled"
      = some (attrStringOpt (lookupField st "disabled")) := by
  simp only [sdsRender]
  simp [sdsDelegateBranch_pos _ hc ht, sdsDelegateBranch_buttonAttrs_ne,
    buttonAttrs_ite, getAttr_ite, getAttr_reflectAttribute1_ne, getAttr_setAttr_self]

/-- When `disabled` changed to a truthy value, `SdsButton[render]`
removes the `disabled` attribute from the host. -/
theorem sdsRender_hostAttrs_disabled_pos (changed : List String) (st : StateMap)
    (dom : RenderDom) (hc : changed.contains "disabled" = true)
    (ht : jsTruthyOpt (lookupField st "disabled") = true) :
    getAttr (sdsRender changed st dom).hostAttrs "disabled" = none := by
  simp only [sdsRender]
  simp [sdsDelegateBranch_pos _ hc ht, sdsDelegateBranch_hostAttrs_ne,
    hostAttrs_ite, getAttr_ite, getAttr_removeAttr_self]

/-- `SdsButton[render]` never writes a `disabled` attribute onto the
host: absence is preserved. -/
theorem sdsRender_hostAttrs_disabled_none (changed : List String) (st : StateMap)
    (dom : RenderDom) (h : getAttr dom.hostAttrs "disabled" = none) :
    getAttr (sdsRender changed st dom).hostAttrs "disabled" = none := by
  simp only [sdsRender]
  simp only [sdsDelegateBranch_hostAttrs_ne _ _ _ _ (by decide : ("disabled":String) ≠ "aria-label"),
    sdsDelegateBranch_hostAttrs_ne _ _ _ _ (by decide : ("disabled":String) ≠ "aria-pressed"),
    sdsDelegateBranch_hostAttrs_ne _ _ _ _ (by decide : ("disabled":String) ≠ "aria-controls"),
    sdsDelegateBranch_hostAttrs_ne _ _ _ _ (by decide : ("disabled":String) ≠ "aria-expanded"),
    sdsDelegateBranch_hostAttrs_ne _ _ _ _ (by decide : ("disabled":String) ≠ "aria-live"),
    sdsDelegateBranch_hostAttrs_ne _ _ _ _ (by decide : ("disabled":String) ≠ "aria-haspopup"),
    sdsDelegateBranch_hostAttrs_ne _ _ _ _ (by decide : ("disabled":String) ≠ "value"),
    sdsDelegateBranch_hostAttrs_ne _ _ _ _ (by decide : ("disabled":String) ≠ "name"),
    sdsDelegateBranch_hostAttrs_ne _ _ _ _ (by decide : ("disabled":String) ≠ "role"),
    hostAttrs_ite, getAttr_ite, ite_self]
  exact sdsDelegateBranch_hostAttrs_none _ _ _ _ _ h

/-- When `disabled` changed but its new value is falsy, the
`disabled` attribute of the shadow button is untouched. -/
theorem sdsRender_buttonAttrs_disabled_not_truthy (changed : List String)
    (st : StateMap) (dom : RenderDom)
    (ht : jsTruthyOpt (lookupField st "disabled") = false) :
    getAttr (sdsRender changed st dom).buttonAttrs "disabled"
      = getAttr dom.buttonAttrs "disabled" := by
  simp only [sdsRender]
  rw [sdsDelegateBranch_not_truthy _ _ _ ht]
  simp [sdsDelegateBranch_buttonAttrs_ne, buttonAttrs_ite, getAttr_ite,
    getAttr_reflectAttribute1_ne]

/-! Composite facts about `C360Button[render]`. -/

/-- On a render where `content` changed, the final state of the shadow
button's `icon-only` attribute is decided by `defaultSlotHasContent`
alone (no later branch touches the button's attributes). -/
theorem c360Render_iconOnly (changed : List String) (st : StateMap) (dom : RenderDom)
    (hc : changed.contains "content" = true) :
    getAttr (c360Render changed st dom).buttonAttrs "icon-only"
      = if defaultSlotHasContent (lookupField st "content") then none else some "" := by
  have hc2 : "content" ∈ changed := by simpa using hc
  simp only [c360Render]
  simp [hc2, buttonAttrs_ite, getAttr_ite, getAttr_setAttr_self, getAttr_removeAttr_self,
    apply_ite (fun m => getAttr m "icon-only")]

theorem contains_classToggle_true (cl : List String) (c : String) :
    (classToggle cl c true).contains c = true := by
  unfold classToggle
  by_cases h : c ∈ cl
  · simp [h]
  · simp [h]

theorem contains_classToggle_false (cl : List String) (c : String) :
    (classToggle cl c false).contains c = false := by
  simp [classToggle]

/-- On a render where `isRippling` changed, the shadow button's class
list is the old one with the ripple-animation class toggled to the
truthiness of the new `isRippling` value. -/
theorem c360Render_buttonClasses (changed : List String) (st : StateMap) (dom : RenderDom)
    (hc : changed.contains "isRippling" = true) :
    (c360Render changed st dom).buttonClasses
      = classToggle dom.buttonClasses "sds-kx-is-animating-from-click"
          (jsTruthyOpt (lookupField st "isRippling")) := by
  have hc2 : "isRippling" ∈ changed := by simpa using hc
  simp only [c360Render]
  simp [hc2, buttonClasses_ite, sdsRender_buttonClasses]

/-! ## Slot-content characterisation -/

theorem textKeeps_iff (t : Option String) :
    checkSlotContent.textKeeps t = true ↔ ∃ s, t = some s ∧ jsTrim s ≠ "" := by
  cases t with
  | none => simp [checkSlotContent.textKeeps]
  | some s =>
    by_cases h : s = ""
    · subst h
      constructor
      · intro hk
        simp [checkSlotContent.textKeeps] at hk
      · rintro ⟨s, hs, htr⟩
        injection hs with hs
        subst hs
        exact absurd (by decide : jsTrim "" = "") htr
    · simp [checkSlotContent.textKeeps, h]

theorem nodeKept_iff (n : DomNode) :
    (match n.tagName with
     | some tag => if tag ≠ "" then true else checkSlotContent.textKeeps n.textContent
     | none => checkSlotContent.textKeeps n.textContent) = true
    ↔ (∃ s, n.tagName = some s ∧ s ≠ "")
        ∨ (∃ t, n.textContent = some t ∧ jsTrim t ≠ "") := by
  cases htag : n.tagName with
  | none => simp [htag, textKeeps_iff]
  | some tag =>
    by_cases h : tag = ""
    · subst h
      simp [htag, textKeeps_iff]
    · simp [htag, h, textKeeps_iff]

/-- `checkSlotContent` holds exactly when some assigned node has a
truthy tag name or text that is non-empty after trimming. -/
theorem checkSlotContent_iff (ns : List DomNode) :
    checkSlotContent ns = true ↔
      ∃ n ∈ ns, (∃ s, n.tagName = some s ∧ s ≠ "")
        ∨ (∃ t, n.textContent = some t ∧ jsTrim t ≠ "") := by
  simp only [checkSlotContent, decide_eq_true_eq]
  rw [gt_iff_lt, List.length_pos_iff_exists_mem]
  constructor
  · rintro ⟨n, hn⟩
    rw [List.mem_filter] at hn
    exact ⟨n, hn.1, (nodeKept_iff n).mp hn.2⟩
  · rintro ⟨n, hmem, hP⟩
    exact ⟨n, List.mem_filter.mpr ⟨hmem, (nodeKept_iff n).mpr hP⟩⟩

/-- **C5.**  On a render where `content` changed: when the `content`
field holds a node array, the shadow button ends up without `icon-only`
exactly when some assigned node is an element (truthy tag name) or has
text content that is non-empty after trimming; when `content` is `null`
(or undefined), `icon-only` is set (as the empty-string boolean
attribute). -/
theorem content_change_toggles_icon_only (st : StateMap) (changed : List String)
    (dom : RenderDom) (hc : changed.contains "content" = true) :
    (∀ (idn : Nat) (ns : List DomNode),
      lookupField st "content" = some (.nodes idn ns) →
        (getAttr (c360Render changed st dom).buttonAttrs "icon-only" = none
          ↔ ∃ n ∈ ns, (∃ s, n.tagName = some s ∧ s ≠ "")
              ∨ (∃ t, n.textContent = some t ∧ jsTrim t ≠ "")))
    ∧ ((lookupField st "content" = some .null ∨ lookupField st "content" = none) →
        getAttr (c360Render changed st dom).buttonAttrs "icon-only" = some "") := by
  have hmain := c360Render_iconOnly changed st dom hc
  constructor
  · intro idn ns hlook
    rw [hmain, hlook]
    show (if checkSlotContent ns then none else some "") = none ↔ _
    by_cases h : checkSlotContent ns = true
    · simp [h, (checkSlotContent_iff ns).mp h]
    · have h2 : checkSlotContent ns = false := by
        cases hb : checkSlotContent ns
        · rfl
        · exact absurd hb h
      simp only [h2, Bool.false_eq_true, if_false]
      constructor
      · intro hcontra
        exact absurd hcontra (by simp)
      · intro hex
        exact absurd ((checkSlotContent_iff ns).mpr hex) h
  · intro hnull
    rw [hmain]
    rcases hnull with h | h <;> simp [defaultSlotHasContent, h]

/-- Witness for C5: one assigned element node (tag `SPAN`) makes the
render remove `icon-only`. -/
theorem content_change_toggles_icon_only_witness :
    getAttr (c360Render ["content"]
        [("content", Value.nodes 0 [{ tagName := some "SPAN", textContent := none }])]
        { hostAttrs := [], hostStyle := [],
          buttonAttrs := [("icon-only", "")], buttonClasses := [] }).buttonAttrs
      "icon-only" = none := by
  have h := (content_change_toggles_icon_only
    [("content", Value.nodes 0 [{ tagName := some "SPAN", textContent := none }])]
    ["content"]
    { hostAttrs := [], hostStyle := [],
      buttonAttrs := [("icon-only", "")], buttonClasses := [] }
    (by decide)).1 0 [{ tagName := some "SPAN", textContent := none }] rfl
  exact h.mpr ⟨{ tagName := some "SPAN", textContent := none }, by simp,
    Or.inl ⟨"SPAN", rfl, by decide⟩⟩

/-! ## Lemmas about `[setState]`, `renderNow` and the click handler -/

theorem currentMap_some {el : WidgetEl} {snap : Snapshot}
    (h : el.currentState = some snap) : currentMap el = snap.map := by
  simp [currentMap, h]

/-- `[setState]` never touches the rendered DOM surface. -/
theorem setStateResult_dom (el : WidgetEl) (changes : StateMap) :
    (setStateResult el changes).1.dom = el.dom := by
  rw [setStateResult_eq]
  split <;> rfl

/-- `[setState]` with a substantive change installs the merged frozen
snapshot and extends the pending change log. -/
theorem setStateResult_changed (el : WidgetEl) (changes : StateMap)
    (h : fieldsChanged (currentMap el) changes ≠ []) :
    (setStateResult el changes).1 = { el with
      currentState := some { map := objAssign (currentMap el) changes, frozen := true }
      changedSinceLastRender := some (mergeChanged (el.changedSinceLastRender.getD [])
        (fieldsChanged (currentMap el) changes)) } := by
  rw [setStateResult_eq]
  have hb : (el.currentState.isSome
      && (fieldsChanged (currentMap el) changes).isEmpty) = false := by
    rcases hl : fieldsChanged (currentMap el) changes with _ | ⟨a, t⟩
    · exact absurd hl h
    · simp [hl]
  rw [if_neg (by simp [hb])]

/-- `renderNow` on an element with a pending change log renders the log
against the current state and clears it. -/
theorem renderNow_eq (el : WidgetEl) (snap : Snapshot) (log : List String)
    (h1 : el.currentState = some snap) (h2 : el.changedSinceLastRender = some log) :
    renderNow el = { el with
      dom := c360Render log snap.map el.dom
      changedSinceLastRender := none
      firstRenderFlag := some false } := by
  unfold renderNow
  rw [h1, h2]

/-- Rendering exactly an `isRippling` change toggles the animation
class from the new state value and nothing else on the class list. -/
theorem c360Render_isRippling_only (st : StateMap) (dom : RenderDom) :
    (c360Render ["isRippling"] st dom).buttonClasses
      = classToggle dom.buttonClasses "sds-kx-is-animating-from-click"
          (jsTruthyOpt (lookupField st "isRippling")) :=
  c360Render_buttonClasses _ _ _ (by decide)

/-- The full effect of a click on an element whose `kxType` is exactly
"ripple" and whose `isRippling` is currently `false` with a clear change
log: the shared record gets the click offset, both coordinate custom
properties are written immediately, `isRippling` becomes `true` and is
logged, the next render adds the ripple animation class, and the
animation-completion handler plus one more render removes it again. -/
theorem handleClick_ripple_spec (el : WidgetEl) (refs : KxRefs) (x y : Int)
    (snap : Snapshot) (hst : el.currentState = some snap)
    (hkx : lookupField snap.map "kxType" = some (Value.str "ripple"))
    (hrip : lookupField snap.map "isRippling" = some (Value.bool false))
    (hlog : el.changedSinceLastRender = none) :
    (handleClick el refs x y).2 = { refs with pointerRef := some (x, y) }
    ∧ getAttr (handleClick el refs x y).1.dom.hostStyle
        "--c360-c-button-kx-pointer-position-x" = some (toString x ++ "px")
    ∧ getAttr (handleClick el refs x y).1.dom.hostStyle
        "--c360-c-button-kx-pointer-position-y" = some (toString y ++ "px")
    ∧ readState (handleClick el refs x y).1 "isRippling" = some (Value.bool true)
    ∧ (handleClick el refs x y).1.changedSinceLastRender = some ["isRippling"]
    ∧ (renderNow (handleClick el refs x y).1).dom.buttonClasses.contains
        "sds-kx-is-animating-from-click" = true
    ∧ (renderNow (handleRippleEnd
          (renderNow (handleClick el refs x y).1))).dom.buttonClasses.contains
        "sds-kx-is-animating-from-click" = false := by
  have hguard : readState el "kxType" = some (Value.str "ripple") := by
    simp [readState, currentMap_some hst, hkx]
  have hclick : handleClick el refs x y
      = ((setIsRippling (setCoordProps el { refs with pointerRef := some (x, y) }) true).1,
         { refs with pointerRef := some (x, y) }) := by
    unfold handleClick
    rw [if_pos hguard]
  set el1 := setCoordProps el { refs with pointerRef := some (x, y) } with hel1def
  have hel1cs : el1.currentState = some snap := hst
  have hel1log : el1.changedSinceLastRender = none := hlog
  have hel1style : el1.dom.hostStyle
      = setAttr (setAttr el.dom.hostStyle
          "--c360-c-button-kx-pointer-position-x" (toString x ++ "px"))
        "--c360-c-button-kx-pointer-position-y" (toString y ++ "px") := rfl
  have hcm1 : currentMap el1 = snap.map := currentMap_some hel1cs
  have hfc1 : fieldsChanged snap.map [("isRippling", Value.bool true)]
      = ["isRippling"] := by
    simp [fieldsChanged, fieldChangedIn, hrip, jsEqual]
  have hel2 : (setIsRippling el1 true).1 = { el1 with
      currentState := some ⟨setField snap.map "isRippling" (Value.bool true), true⟩
      changedSinceLastRender := some ["isRippling"] } := by
    have h := setStateResult_changed el1 [("isRippling", Value.bool true)]
      (by rw [hcm1, hfc1]; simp)
    rw [hcm1, hfc1, hel1log] at h
    simpa [mergeChanged_nil] using h
  have hel2cs : (setIsRippling el1 true).1.currentState
      = some { map := setField snap.map "isRippling" (Value.bool true), frozen := true } := by
    rw [hel2]
  have hel2log : (setIsRippling el1 true).1.changedSinceLastRender
      = some ["isRippling"] := by
    rw [hel2]
  have hel2dom : (setIsRippling el1 true).1.dom = el1.dom := by
    rw [hel2]
  have hrn2 := renderNow_eq _ _ _ hel2cs hel2log
  have hel3cs : (renderNow (setIsRippling el1 true).1).currentState
      = some { map := setField snap.map "isRippling" (Value.bool true), frozen := true } := by
    rw [hrn2]
    exact hel2cs
  have hel3log : (renderNow (setIsRippling el1 true).1).changedSinceLastRender = none := by
    rw [hrn2]
  have hcm3 : currentMap (renderNow (setIsRippling el1 true).1)
      = setField snap.map "isRippling" (Value.bool true) := currentMap_some hel3cs
  have hfc3 : fieldsChanged (setField snap.map "isRippling" (Value.bool true))
      [("isRippling", Value.bool false)] = ["isRippling"] := by
    simp [fieldsChanged, fieldChangedIn, lookupField_setField_self, jsEqual]
  have hel4 : handleRippleEnd (renderNow (setIsRippling el1 true).1)
      = { (renderNow (setIsRippling el1 true).1) with
          currentState := some
            ⟨setField (setField snap.map "isRippling" (Value.bool true))
              "isRippling" (Value.bool false), true⟩
          changedSinceLastRender := some ["isRippling"] } := by
    have h := setStateResult_changed (renderNow (setIsRippling el1 true).1)
      [("isRippling", Value.bool false)] (by rw [hcm3, hfc3]; simp)
    rw [hcm3, hfc3, hel3log] at h
    simpa [mergeChanged_nil] using h
  have hel4cs : (handleRippleEnd (renderNow (setIsRippling el1 true).1)).currentState
      = some ⟨setField (setField snap.map "isRippling" (Value.bool true))
          "isRippling" (Value.bool false), true⟩ := by
    rw [hel4]
  have hel4log : (handleRippleEnd (renderNow (setIsRippling el1 true).1)).changedSinceLastRender
      = some ["isRippling"] := by
    rw [hel4]
  have hrn4 := renderNow_eq _ _ _ hel4cs hel4log
  refine ⟨?_, ?_, ?_, ?_, ?_, ?_, ?_⟩
  · rw [hclick]
  · rw [hclick]
    show getAttr (setIsRippling el1 true).1.dom.hostStyle _ = _
    rw [hel2dom, hel1style, getAttr_setAttr_ne _ _ (by decide)]
    exact getAttr_setAttr_self _ _ _
  · rw [hclick]
    show getAttr (setIsRippling el1 true).1.dom.hostStyle _ = _
    rw [hel2dom, hel1style]
    exact getAttr_setAttr_self _ _ _
  · rw [hclick]
    show readState (setIsRippling el1 true).1 "isRippling" = _
    unfold readState
    rw [currentMap_some hel2cs]
    exact lookupField_setField_self _ _ _
  · rw [hclick]
    exact hel2log
  · rw [hclick]
    show (renderNow (setIsRippling el1 true).1).dom.buttonClasses.contains _ = true
    rw [hrn2]
    show (c360Render ["isRippling"] (setField snap.map "isRippling" (Value.bool true))
      (setIsRippling el1 true).1.dom).buttonClasses.contains _ = true
    rw [c360Render_isRippling_only, lookupField_setField_self]
    exact contains_classToggle_true _ _
  · rw [hclick]
    show (renderNow (handleRippleEnd
        (renderNow (setIsRippling el1 true).1))).dom.buttonClasses.contains _ = false
    rw [hrn4]
    show (c360Render ["isRippling"]
      (setField (setField snap.map "isRippling" (Value.bool true))
        "isRippling" (Value.bool false))
      (handleRippleEnd (renderNow (setIsRippling el1 true).1)).dom).buttonClasses.contains _ = false
    rw [c360Render_isRippling_only, lookupField_setField_self]
    exact contains_classToggle_false _ _

/-! ## Claim theorems about the `kx-type` attribute -/

/-- **C1 (counterexample to the claim as stated).**  The claim says a
render after which only the kinetics-enabled flag changed (here: via
the `kxDisabled` setter, which changes `kxDisabled` and `kinetics` but
not `kxType`) removes the host's `kx-type` attribute.  On the code it
does not: starting from a rendered element with `kinetics = true`,
`kxType = "ripple"` and `kx-type="ripple"` on the host, setting
`kxDisabled` to the truthy boolean-attribute value `""` and rendering
leaves `kinetics = false` in state but the `kx-type` attribute still
present — the render branch is guarded by `changed.kxType` alone. -/
theorem kx_type_not_removed_by_kxDisabled_toggle :
    readState (renderNow ((setKxDisabled renderedRippleButton (Value.str "")).1))
        "kinetics" = some (Value.bool false)
    ∧ getAttr (renderNow
          ((setKxDisabled renderedRippleButton (Value.str "")).1)).dom.hostAttrs
        "kx-type" = some "ripple" := by
  decide

/-- **C1 (amended).**  The host's `kx-type` attribute is updated only on
renders where the `kxType` state field changed: there it is set equal to
the (reflected) ripple type when kinetics is enabled and removed when
kinetics is disabled (or the ripple type is falsy).  On a render where
`kxType` did not change — in particular after toggling `kxDisabled`
alone — the attribute is left untouched. -/
theorem kx_type_reflects_only_on_kxType_change (st : StateMap)
    (changed : List String) (dom : RenderDom) :
    (changed.contains "kxType" = true →
      getAttr (c360Render changed st dom).hostAttrs "kx-type"
        = if jsTruthyOpt (lookupField st "kinetics") then
            (if jsTruthyOpt (lookupField st "kxType")
             then some (reflectedString (lookupField st "kxType")) else none)
          else none)
    ∧ (changed.contains "kxType" = false →
        getAttr (c360Render changed st dom).hostAttrs "kx-type"
          = getAttr dom.hostAttrs "kx-type") := by
  constructor
  · intro hc
    have hc2 : "kxType" ∈ changed := by simpa using hc
    by_cases hk : jsTruthyOpt (lookupField st "kinetics") = true
    · simp only [c360Render]
      simp [hc2, hk, hostAttrs_ite, getAttr_ite, getAttr_reflectAttribute_ne,
        getAttr_reflectAttribute_self]
    · have hk2 : jsTruthyOpt (lookupField st "kinetics") = false := by
        cases hb : jsTruthyOpt (lookupField st "kinetics")
        · rfl
        · exact absurd hb hk
      simp only [c360Render]
      simp [hc2, hk2, hostAttrs_ite, getAttr_ite, getAttr_reflectAttribute_ne,
        getAttr_reflectAttribute_self,
        (by decide : jsTruthyOpt (some (Value.bool false)) = false)]
  · intro hc
    have hc2 : "kxType" ∉ changed := by simpa using hc
    simp only [c360Render]
    simp [hc2, hostAttrs_ite, getAttr_ite, getAttr_reflectAttribute_ne,
      sdsRender_hostAttrs_kx_type]

/-- Witness for the amended C1: a `kxType` render with kinetics enabled
writes `kx-type="ripple"`; a `size`-only render leaves an existing
`kx-type="ripple"` untouched. -/
theorem kx_type_reflects_only_on_kxType_change_witness :
    getAttr (c360Render ["kxType"]
        [("kxType", Value.str "ripple"), ("kinetics", Value.bool true)]
        { hostAttrs := [], hostStyle := [], buttonAttrs := [], buttonClasses := [] }).hostAttrs
      "kx-type" = some "ripple"
    ∧ getAttr (c360Render ["size"]
        [("size", Value.str "hero")]
        { hostAttrs := [("kx-type", "ripple")], hostStyle := [],
          buttonAttrs := [], buttonClasses := [] }).hostAttrs
      "kx-type" = some "ripple" := by
  constructor
  · have h := (kx_type_reflects_only_on_kxType_change
      [("kxType", Value.str "ripple"), ("kinetics", Value.bool true)] ["kxType"]
      { hostAttrs := [], hostStyle := [], buttonAttrs := [], buttonClasses := [] }).1
      (by decide)
    exact h.trans (by decide)
  · have h := (kx_type_reflects_only_on_kxType_change
      [("size", Value.str "hero")] ["size"]
      { hostAttrs := [("kx-type", "ripple")], hostStyle := [],
        buttonAttrs := [], buttonClasses := [] }).2 (by decide)
    exact h.trans (by decide)

/-! ## Claim theorems about rendering `disabled` -/

/-- **C7.**  On any render where the `disabled` state field changed to a
truthy value, the shadow `[part="button"]` element receives the
`disabled` attribute while it is simultaneously removed from the host;
and no render ever writes a `disabled` attribute onto the host, so a
host without the attribute still lacks it after any render. -/
theorem disabled_render_delegates_to_inner_button (st : StateMap)
    (changed : List String) (dom : RenderDom) :
    (changed.contains "disabled" = true →
      jsTruthyOpt (lookupField st "disabled") = true →
        getAttr (c360Render changed st dom).buttonAttrs "disabled"
            = some (attrStringOpt (lookupField st "disabled"))
        ∧ getAttr (c360Render changed st dom).hostAttrs "disabled" = none)
    ∧ (getAttr dom.hostAttrs "disabled" = none →
        getAttr (c360Render changed st dom).hostAttrs "disabled" = none) := by
  constructor
  · intro hc ht
    constructor
    · simp only [c360Render]
      simp [buttonAttrs_ite, getAttr_ite, getAttr_setAttr_ne, getAttr_removeAttr_ne,
        sdsRender_buttonAttrs_disabled_pos _ _ _ hc ht]
    · simp only [c360Render]
      simp [hostAttrs_ite, getAttr_ite, getAttr_reflectAttribute_ne,
        sdsRender_hostAttrs_disabled_pos _ _ _ hc ht]
  · intro hnone
    simp only [c360Render]
    simp [hostAttrs_ite, getAttr_ite, getAttr_reflectAttribute_ne,
      sdsRender_hostAttrs_disabled_none _ _ _ hnone]

/-- Witness for C7: a concrete render with `disabled` changed to
`true` puts `disabled="true"` on the shadow button and leaves the host
clean. -/
theorem disabled_render_delegates_to_inner_button_witness :
    getAttr (c360Render ["disabled"] [("disabled", Value.bool true)]
        { hostAttrs := [("disabled", "true")], hostStyle := [],
          buttonAttrs := [], buttonClasses := [] }).buttonAttrs "disabled"
      = some "true"
    ∧ getAttr (c360Render ["disabled"] [("disabled", Value.bool true)]
        { hostAttrs := [("disabled", "true")], hostStyle := [],
          buttonAttrs := [], buttonClasses := [] }).hostAttrs "disabled"
      = none := by
  have h := (disabled_render_delegates_to_inner_button
    [("disabled", Value.bool true)] ["disabled"]
    { hostAttrs := [("disabled", "true")], hostStyle := [],
      buttonAttrs := [], buttonClasses := [] }).1 (by decide) (by decide)
  exact ⟨h.1.trans (by decide), h.2⟩

/-- **C9.**  On a render where `disabled` changed and the new value is
falsy, the delegation code does not run: with `disabled` the only
changed field the whole render is the identity on the DOM surface, and
in general the shadow button's `disabled` attribute is left exactly as
it was — in particular, once the shadow button carries `disabled`,
setting the property back to `false` never removes it. -/
theorem disabled_false_render_leaves_button_attrs :
    (∀ (st : StateMap) (dom : RenderDom),
      jsTruthyOpt (lookupField st "disabled") = false →
        c360Render ["disabled"] st dom = dom)
    ∧ (∀ (st : StateMap) (changed : List String) (dom : RenderDom),
        changed.contains "disabled" = true →
        jsTruthyOpt (lookupField st "disabled") = false →
          getAttr (c360Render changed st dom).buttonAttrs "disabled"
            = getAttr dom.buttonAttrs "disabled") := by
  constructor
  · intro st dom ht
    simp only [c360Render, sdsRender]
    simp [sdsDelegateBranch_not_changed, sdsDelegateBranch_not_truthy, ht]
  · intro st changed dom hc ht
    simp only [c360Render]
    simp [buttonAttrs_ite, getAttr_ite, getAttr_setAttr_ne, getAttr_removeAttr_ne,
      sdsRender_buttonAttrs_disabled_not_truthy _ _ _ ht]

/-- Witness for C9: a render with `disabled` changed to `false` leaves
a shadow button that already carries `disabled="true"` untouched. -/
theorem disabled_false_render_leaves_button_attrs_witness :
    jsTruthyOpt (lookupField [("disabled", Value.bool false)] "disabled") = false
    ∧ c360Render ["disabled"] [("disabled", Value.bool false)]
        { hostAttrs := [], hostStyle := [],
          buttonAttrs := [("disabled", "true")], buttonClasses := [] }
      = { hostAttrs := [], hostStyle := [],
          buttonAttrs := [("disabled", "true")], buttonClasses := [] } :=
  ⟨by decide,
   disabled_false_render_leaves_button_attrs.1 _ _ (by decide)⟩

/-! ## Claim theorems about the kinetics handlers -/

/-- **C2.**  A click on a widget whose configured ripple type is exactly
the string "ripple" (and which is not already rippling, with a clear
change log) records the click offset in the shared pointer record,
writes both coordinate custom properties immediately, sets `isRippling`
to `true`, which on the next render adds the ripple animation class;
the subsequent animation-completion event sets `isRippling` back to
`false`, and the render after that removes the class.  A click with any
other ripple type returns immediately with no state change at all. -/
theorem click_ripples_only_for_ripple_type (el : WidgetEl) (refs : KxRefs)
    (x y : Int) (snap : Snapshot) (hst : el.currentState = some snap)
    (hkx : lookupField snap.map "kxType" = some (Value.str "ripple"))
    (hrip : lookupField snap.map "isRippling" = some (Value.bool false))
    (hlog : el.changedSinceLastRender = none) :
    (handleClick el refs x y).2 = { refs with pointerRef := some (x, y) }
    ∧ getAttr (handleClick el refs x y).1.dom.hostStyle
        "--c360-c-button-kx-pointer-position-x" = some (toString x ++ "px")
    ∧ getAttr (handleClick el refs x y).1.dom.hostStyle
        "--c360-c-button-kx-pointer-position-y" = some (toString y ++ "px")
    ∧ readState (handleClick el refs x y).1 "isRippling" = some (Value.bool true)
    ∧ (handleClick el refs x y).1.changedSinceLastRender = some ["isRippling"]
    ∧ (renderNow (handleClick el refs x y).1).dom.buttonClasses.contains
        "sds-kx-is-animating-from-click" = true
    ∧ (renderNow (handleRippleEnd
          (renderNow (handleClick el refs x y).1))).dom.buttonClasses.contains
        "sds-kx-is-animating-from-click" = false
    ∧ (∀ (el2 : WidgetEl) (refs2 : KxRefs),
        readState el2 "kxType" ≠ some (Value.str "ripple") →
          handleClick el2 refs2 x y = (el2, refs2)) := by
  have h := handleClick_ripple_spec el refs x y snap hst hkx hrip hlog
  refine ⟨h.1, h.2.1, h.2.2.1, h.2.2.2.1, h.2.2.2.2.1, h.2.2.2.2.2.1,
    h.2.2.2.2.2.2, ?_⟩
  intro el2 refs2 hne
  unfold handleClick
  rw [if_neg hne]

/-- Witness for C2: a concrete click at offset (3, 4). -/
theorem click_ripples_only_for_ripple_type_witness :
    (handleClick idleKxDisabledButton ⟨none, none, none⟩ 3 4).2.pointerRef = some (3, 4)
    ∧ readState (handleClick idleKxDisabledButton ⟨none, none, none⟩ 3 4).1 "isRippling"
        = some (Value.bool true)
    ∧ (renderNow (handleClick idleKxDisabledButton
          ⟨none, none, none⟩ 3 4).1).dom.buttonClasses.contains
        "sds-kx-is-animating-from-click" = true := by
  have h := click_ripples_only_for_ripple_type idleKxDisabledButton ⟨none, none, none⟩ 3 4
    ⟨[("kxType", Value.str "ripple"), ("kinetics", Value.bool false),
      ("kxDisabled", Value.bool true), ("isRippling", Value.bool false)], true⟩
    rfl (by decide) (by decide) rfl
  refine ⟨?_, h.2.2.2.1, h.2.2.2.2.2.1⟩
  rw [h.1]

/-- **C10.**  The click handler consults only the ripple type, never the
kinetics-enabled flag: with `kxDisabled = true` and `kinetics = false`
but `kxType = "ripple"`, a click still records the pointer offset in
the shared record, writes both coordinate custom properties, and sets
`isRippling` to `true`, adding the ripple animation class on the next
render. -/
theorem click_ignores_kinetics_flag (el : WidgetEl) (refs : KxRefs)
    (x y : Int) (snap : Snapshot) (hst : el.currentState = some snap)
    (hkx : lookupField snap.map "kxType" = some (Value.str "ripple"))
    (hkin : lookupField snap.map "kinetics" = some (Value.bool false))
    (hdis : lookupField snap.map "kxDisabled" = some (Value.bool true))
    (hrip : lookupField snap.map "isRippling" = some (Value.bool false))
    (hlog : el.changedSinceLastRender = none) :
    (handleClick el refs x y).2 = { refs with pointerRef := some (x, y) }
    ∧ getAttr (handleClick el refs x y).1.dom.hostStyle
        "--c360-c-button-kx-pointer-position-x" = some (toString x ++ "px")
    ∧ getAttr (handleClick el refs x y).1.dom.hostStyle
        "--c360-c-button-kx-pointer-position-y" = some (toString y ++ "px")
    ∧ readState (handleClick el refs x y).1 "isRippling" = some (Value.bool true)
    ∧ (renderNow (handleClick el refs x y).1).dom.buttonClasses.contains
        "sds-kx-is-animating-from-click" = true := by
  have hk := hkin
  have hd := hdis
  have h := handleClick_ripple_spec el refs x y snap hst hkx hrip hlog
  exact ⟨h.1, h.2.1, h.2.2.1, h.2.2.2.1, h.2.2.2.2.2.1⟩

/-- Witness for C10: the kinetics-disabled button still ripples on a
concrete click at offset (5, 6). -/
theorem click_ignores_kinetics_flag_witness :
    readState (handleClick idleKxDisabledButton ⟨none, none, none⟩ 5 6).1 "isRippling"
        = some (Value.bool true)
    ∧ (renderNow (handleClick idleKxDisabledButton
          ⟨none, none, none⟩ 5 6).1).dom.buttonClasses.contains
        "sds-kx-is-animating-from-click" = true := by
  have h := click_ignores_kinetics_flag idleKxDisabledButton ⟨none, none, none⟩ 5 6
    ⟨[("kxType", Value.str "ripple"), ("kinetics", Value.bool false),
      ("kxDisabled", Value.bool true), ("isRippling", Value.bool false)], true⟩
    rfl (by decide) (by decide) (by decide) (by decide) rfl
  exact ⟨h.2.2.2.1, h.2.2.2.2⟩

/-- **C8.**  The pointer-offset / animation-frame record is one shared
record: `kxRefs` is a single module-level object, so every instance's
handlers act on the same `KxRefs` value threaded through here.  The
handlers' effect on the record is independent of which instance the
event fired on; the record tracks exactly one frame handle (the one of
the latest pointer-enter, whichever instance that was) and exactly one
last pointer offset (the latest write, whichever instance's listener
made it); a click either leaves the record alone (non-ripple type) or
overwrites the single shared offset slot. -/
theorem kxRefs_single_shared_record (el el2 : WidgetEl) (refs : KxRefs)
    (n : Nat) (x y : Int) :
    (handleEnter el refs n).2 = (handleEnter el2 refs n).2
    ∧ (handleEnter el refs n).2.requestRef = some n
    ∧ (handleMove refs x y).pointerRef = some (x, y)
    ∧ (handleMove refs x y).requestRef = refs.requestRef
    ∧ (handleLeave el refs).2 = (handleLeave el2 refs).2
    ∧ ((handleClick el refs x y).2 = refs
        ∨ (handleClick el refs x y).2 = { refs with pointerRef := some (x, y) }) := by
  refine ⟨rfl, rfl, rfl, rfl, rfl, ?_⟩
  unfold handleClick
  split
  · right
    rfl
  · left
    rfl

end C360
